import Mathlib

/-!
Verification development for the haxball-league-dashboard-bff repository.

The two source files under scrutiny are
`src/pages_experimental/4_Statistics.py` (statistics viewer) and
`src/pages_experimental/6_Database_operations.py` (spreadsheet import /
export console).  Pure data-transformation functions are embedded as Lean
definitions; the database is embedded as an explicit record of tables and
the fallible import steps as `Except`-valued state transformers.  Helper
functions that live in `utils/` (outside the provided sources) are
modelled from the specification and marked as such in their doc comments.
-/

/-! ## Data model of the statistics page (4_Statistics.py)

Records are read through the ORM; only the fields the embedded functions
touch are modelled.  `MatchDetailRec.teamName` stands for the source
expression `md.team.name`, and `TeamPlayerLink.player` for the related
`LeaguePlayer` object carried by a `LeaguePlayerTeams` row. -/

structure LeagueDivision where
  id : Int
  name : String
deriving DecidableEq

structure TeamDivisionLink where
  leagueDivisionId : Int
deriving DecidableEq

structure LeaguePlayer where
  id : Int
  name : String
  nicks : List String
deriving DecidableEq

structure TeamPlayerLink where
  player : LeaguePlayer
  active : Bool
deriving DecidableEq

structure LeagueTeam where
  id : Int
  name : String
  divisions : List TeamDivisionLink
  players : List TeamPlayerLink
deriving DecidableEq

structure MatchDetailRec where
  teamName : String
deriving DecidableEq

/-- One recorded stat line inside a match period (the raw data from which
`PlayerStatSheet`s are derived).  Only the counting fields needed by the
claims are carried. -/
structure PeriodEntry where
  playerName : String
  teamName : String
  goals : Int
  gametime : ℚ
deriving DecidableEq

structure MatchPeriod where
  entries : List PeriodEntry
deriving DecidableEq

structure LeagueMatch where
  id : Int
  leagueDivisionId : Int
  matchday : String
  detail : List MatchDetailRec
  periods : List MatchPeriod
  title : String
deriving DecidableEq

/-- Derived, not persisted: one player's per-period statistics for one
match.  `player = none` is an orphan sheet (no roster player matched the
recorded name). -/
structure PlayerStatSheet where
  player : Option LeaguePlayer
  player_name : String
  teamName : String
  period_nb : Nat
  goals : Int
  gametime : ℚ
deriving DecidableEq

/-- Modelled from the spec: `utils.utils.get_unique_order` is not under
`src/`.  Per the spec, matchday order "is assigned by first occurrence in
the division's match list (stable de-duplication), not by sorting the
labels". -/
def get_unique_order (l : List String) : List String :=
  l.foldl (fun acc x => if x ∈ acc then acc else acc ++ [x]) []

/-- Modelled from the spec: `utils.utils.is_match_played` is not under
`src/`.  Per the spec, "a match's played status is derived from whether
it has any periods". -/
def is_match_played (m : LeagueMatch) : Bool :=
  !m.periods.isEmpty

/-- Index of the first occurrence of `s` in `l` (the value of the Python
dict `{v: i for i, v in enumerate(md_list)}` at key `s`; `md_list` is
duplicate-free so the first occurrence is the only one).  Returns
`l.length` when `s` is absent, a case the call sites never hit. -/
def idx_of (l : List String) (s : String) : Nat :=
  match l with
  | [] => 0
  | x :: xs => if x = s then 0 else idx_of xs s + 1

/-- Maximum of a list of naturals (the Python `max(md_dict.values())`
applied to the value list). -/
def nat_list_max (l : List Nat) : Nat :=
  l.foldl max 0

/-- Minimum of a nonempty list of naturals (the Python
`min(set(md_val_not_played))`; deduplicating with `set` does not change
the minimum). -/
def nat_list_min (l : List Nat) : Nat :=
  match l with
  | [] => 0
  | x :: xs => xs.foldl min x

/-- Source line 66: `[m for m in matches if m.leagueDivisionId == division.id]`. -/
def matches_of_div (ms : List LeagueMatch) (dv : LeagueDivision) : List LeagueMatch :=
  ms.filter (fun m => m.leagueDivisionId == dv.id)

/-- Source line 67: `get_unique_order([m.matchday for m in matches_div])`. -/
def md_order (ms : List LeagueMatch) (dv : LeagueDivision) : List String :=
  get_unique_order ((matches_of_div ms dv).map (fun m => m.matchday))

/-- The matchday index assigned to match `m` inside division `dv`
(`md_dict[m.matchday]` in the source). -/
def assigned_idx (ms : List LeagueMatch) (dv : LeagueDivision) (m : LeagueMatch) : Nat :=
  idx_of (md_order ms dv) m.matchday

/-- Source lines 71-73: assigned indices of the not-yet-played matches of
the division. -/
def unplayed_idxs (ms : List LeagueMatch) (dv : LeagueDivision) : List Nat :=
  ((matches_of_div ms dv).filter (fun m => !is_match_played m)).map
    (fun m => idx_of (md_order ms dv) m.matchday)

/-- `get_max_matchday_stats`, source lines 61-77 of 4_Statistics.py. -/
def get_max_matchday_stats (ms : List LeagueMatch) (division : Option LeagueDivision) : Int :=
  match division with
  | none => 1
  | some dv =>
    let md_list := md_order ms dv
    if md_list.length = 0 then 0
    else
      let md_val_not_played := unplayed_idxs ms dv
      if md_val_not_played.length = 0 then
        (nat_list_max (List.range md_list.length) : Int)
      else
        max 0 ((nat_list_min md_val_not_played : Int) - 1)

/-- `filter_matches`, source lines 80-100 of 4_Statistics.py.  The loop
with `continue` is a filter by the conjunction of the matchday-range test
and the optional team test. -/
def filter_matches (ms : List LeagueMatch) (team_name : Option String)
    (division : Option LeagueDivision) (matchdays_select : Nat × Nat) : List LeagueMatch :=
  match division with
  | none => ms
  | some dv =>
    let md_list := md_order ms dv
    (matches_of_div ms dv).filter (fun m =>
      !(decide (idx_of md_list m.matchday < matchdays_select.1) ||
        decide (matchdays_select.2 < idx_of md_list m.matchday)) &&
      (match team_name with
       | none => true
       | some nm => m.detail.any (fun md => md.teamName == nm)))

/-- Modelled from the spec: the stat-sheet construction inside
`utils.utils.get_statsheet_list` is not under `src/`.  Per spec §4.4 a
sheet's player is resolved by matching the recorded name against roster
players (names and nicknames); no match yields an orphan sheet. -/
def resolve_player (players : List LeaguePlayer) (nm : String) : Option LeaguePlayer :=
  players.find? (fun p => p.name == nm || p.nicks.contains nm)

/-- Modelled from the spec: `utils.utils.get_statsheet_list` is not under
`src/`.  Per spec §4.4, "for every filtered match, every period, and every
team-in-period, a stat sheet is produced per roster slot (or an orphan
sheet if no roster player matches the recorded name)". -/
def get_statsheet_list (players : List LeaguePlayer) (m : LeagueMatch) : List PlayerStatSheet :=
  (m.periods.enum.map (fun ip =>
    ip.2.entries.map (fun e =>
      { player := resolve_player players e.playerName
        player_name := e.playerName
        teamName := e.teamName
        period_nb := ip.1 + 1
        goals := e.goals
        gametime := e.gametime }))).flatten

/-- Field-by-field sum of two sheets over the modelled counting fields
(plain sums per spec §4.4). -/
def add_sheet_stats (a b : PlayerStatSheet) : PlayerStatSheet :=
  { a with goals := a.goals + b.goals, gametime := a.gametime + b.gametime }

/-- Whether two sheets belong to the same aggregation group (same resolved
player identity; orphan sheets group by recorded name). -/
def sheet_same_key (a b : PlayerStatSheet) : Bool :=
  match a.player, b.player with
  | some p, some q => p.id == q.id
  | none, none => a.player_name == b.player_name
  | _, _ => false

/-- Modelled from the spec: `utils.utils.sum_sheets` is not under `src/`.
Per spec §4.4, "all sheets across all filtered matches/periods are grouped
by resolved player identity and summed field-by-field". -/
def sum_sheets (l : List PlayerStatSheet) : List PlayerStatSheet :=
  l.foldl (fun acc ps =>
    match acc.find? (fun q => sheet_same_key q ps) with
    | some _ => acc.map (fun q => if sheet_same_key q ps then add_sheet_stats q ps else q)
    | none => acc ++ [ps]) []

/-- The division filter and team filter applied to one team inside
`get_stats` (source lines 117-123): the two nested `if`s collapsed into
one boolean. -/
def team_passes_filters (div_select : Option LeagueDivision) (team_name_select : Option String)
    (team : LeagueTeam) : Bool :=
  (match div_select with
   | none => true
   | some dv => (team.divisions.map (fun td => td.leagueDivisionId)).contains dv.id) &&
  (match team_name_select with
   | none => true
   | some nm => team.name == nm)

/-- Source lines 116-125: the ids of players currently active on some team
passing both filters. -/
def players_stats_id (teams : List LeagueTeam) (div_select : Option LeagueDivision)
    (team_name_select : Option String) : List Int :=
  teams.flatMap (fun team =>
    if team_passes_filters div_select team_name_select team then
      (team.players.filter (fun p => p.active)).map (fun p => p.player.id)
    else [])

/-- `get_stats`, source lines 103-133 of 4_Statistics.py. -/
def get_stats (matches_filter : List LeagueMatch) (teams : List LeagueTeam)
    (players : List LeaguePlayer) (div_select : Option LeagueDivision)
    (team_name_select : Option String) : List PlayerStatSheet :=
  let period_sheets := matches_filter.flatMap (fun m => get_statsheet_list players m)
  let player_sheets := sum_sheets period_sheets
  player_sheets.filter (fun ps =>
    match ps.player with
    | some p => (players_stats_id teams div_select team_name_select).contains p.id
    | none => false)

/-- The list of orphan sheets (with their matches) that
`show_missing_stats` (source lines 136-154) renders in the admin view. -/
def missing_stats (matches_filter : List LeagueMatch) (players : List LeaguePlayer) :
    List (PlayerStatSheet × LeagueMatch) :=
  matches_filter.flatMap (fun m =>
    ((get_statsheet_list players m).filter (fun ps => ps.player.isNone)).map
      (fun ps => (ps, m)))

/-- Modelled from the spec: `utils.constants.GAME_TIME` is not under
`src/`.  The spec's normalization example uses a full-game basis of
`GAME_TIME * 2 * 60 = 1200` seconds (two 600-second halves), so
`GAME_TIME = 10` minutes. -/
def GAME_TIME : ℚ := 10

/-- `treat_stat`, source lines 164-167 of 4_Statistics.py, read as the
pointwise arithmetic the polars expression performs on each value. -/
def treat_stat (stat : ℚ) (normalized : Bool) (gametime : ℚ) : ℚ :=
  if normalized then stat / (gametime / (GAME_TIME * 2 * 60)) else stat

/-- One aggregated row as seen by `display_stats` when it computes the
pass-success column (source lines 292-294). -/
structure AggRow where
  passesSuccessful : ℚ
  passesAttempted : ℚ
deriving DecidableEq

/-- Pointwise semantics of the polars float division
`pl.col("stats.passesSuccessful") / pl.col("stats.passesAttempted")`:
dividing by zero does not raise, it produces the degenerate NaN/inf
value, modelled here as `none`. -/
def polars_div (x y : ℚ) : Option ℚ :=
  if y = 0 then none else some (x / y)

/-- The `passSuccess` column built by `display_stats` (source line
292-294): unguarded division applied to every aggregated row. -/
def pass_success_col (rows : List AggRow) : List (Option ℚ) :=
  rows.map (fun r => polars_div r.passesSuccessful r.passesAttempted)

/-! ## Helper lemmas about the list utilities -/

theorem gu_foldl_mem (l : List String) :
    ∀ (acc : List String) (x : String),
      (x ∈ l.foldl (fun acc y => if y ∈ acc then acc else acc ++ [y]) acc ↔ x ∈ acc ∨ x ∈ l) := by
  induction l with
  | nil => intro acc x; simp
  | cons a t ih =>
    intro acc x
    simp only [List.foldl_cons]
    rw [ih]
    by_cases ha : a ∈ acc
    · simp only [if_pos ha, List.mem_cons]
      constructor
      · rintro (h | h)
        · exact Or.inl h
        · exact Or.inr (Or.inr h)
      · rintro (h | h | h)
        · exact Or.inl h
        · exact Or.inl (h ▸ ha)
        · exact Or.inr h
    · simp only [if_neg ha, List.mem_append, List.mem_singleton, List.mem_cons]
      tauto

theorem gu_mem (l : List String) (x : String) : x ∈ get_unique_order l ↔ x ∈ l := by
  unfold get_unique_order
  rw [gu_foldl_mem]
  simp

theorem gu_foldl_nodup (l : List String) :
    ∀ (acc : List String), acc.Nodup →
      (l.foldl (fun acc y => if y ∈ acc then acc else acc ++ [y]) acc).Nodup := by
  induction l with
  | nil => intro acc h; simpa using h
  | cons a t ih =>
    intro acc h
    simp only [List.foldl_cons]
    by_cases ha : a ∈ acc
    · rw [if_pos ha]; exact ih acc h
    · rw [if_neg ha]
      refine ih (acc ++ [a]) ?_
      simp [List.nodup_append, h, ha]

theorem gu_nodup (l : List String) : (get_unique_order l).Nodup :=
  gu_foldl_nodup l [] List.nodup_nil

theorem idx_of_lt_length (l : List String) (s : String) (h : s ∈ l) :
    idx_of l s < l.length := by
  induction l with
  | nil => simp at h
  | cons x xs ih =>
    by_cases hx : x = s
    · simp [idx_of, hx]
    · rcases List.mem_cons.mp h with h1 | h1
      · exact absurd h1.symm hx
      · simpa [idx_of, hx] using ih h1

theorem idx_of_get (l : List String) (hl : l.Nodup) :
    ∀ (i : Nat) (h : i < l.length), idx_of l (l.get ⟨i, h⟩) = i := by
  induction l with
  | nil => intro i h; simp at h
  | cons x xs ih =>
    intro i h
    cases i with
    | zero => simp [idx_of]
    | succ j =>
      have hj : j < xs.length := Nat.lt_of_succ_lt_succ h
      have hget : (x :: xs).get ⟨j + 1, h⟩ = xs.get ⟨j, hj⟩ := rfl
      have hx : x ∉ xs := (List.nodup_cons.mp hl).1
      have hne : x ≠ xs.get ⟨j, hj⟩ := by
        intro he
        exact hx (he ▸ List.get_mem xs j hj)
      rw [hget]
      simp only [idx_of, if_neg hne]
      rw [ih (List.nodup_cons.mp hl).2 j hj]

theorem le_foldl_max (l : List Nat) : ∀ (a : Nat), a ≤ l.foldl max a := by
  induction l with
  | nil => intro a; simp
  | cons x xs ih =>
    intro a
    calc a ≤ max a x := le_max_left a x
    _ ≤ xs.foldl max (max a x) := ih (max a x)

theorem mem_le_foldl_max (l : List Nat) : ∀ (a x : Nat), x ∈ l → x ≤ l.foldl max a := by
  induction l with
  | nil => intro a x h; simp at h
  | cons y ys ih =>
    intro a x h
    rcases List.mem_cons.mp h with h1 | h1
    · subst h1
      calc x ≤ max a x := le_max_right a x
      _ ≤ ys.foldl max (max a x) := le_foldl_max ys (max a x)
    · exact ih (max a y) x h1

theorem foldl_max_le (l : List Nat) :
    ∀ (a b : Nat), a ≤ b → (∀ x ∈ l, x ≤ b) → l.foldl max a ≤ b := by
  induction l with
  | nil => intro a b hab _; simpa using hab
  | cons y ys ih =>
    intro a b hab hall
    refine ih (max a y) b ?_ ?_
    · exact max_le hab (hall y (List.mem_cons_self y ys))
    · intro x hx; exact hall x (List.mem_cons_of_mem y hx)

theorem nat_list_max_le (l : List Nat) (b : Nat) (h : ∀ x ∈ l, x ≤ b) :
    nat_list_max l ≤ b :=
  foldl_max_le l 0 b (Nat.zero_le b) h

theorem le_nat_list_max (l : List Nat) (x : Nat) (h : x ∈ l) : x ≤ nat_list_max l :=
  mem_le_foldl_max l 0 x h

theorem nat_list_max_append_single (l : List Nat) (x : Nat) :
    nat_list_max (l ++ [x]) = max (nat_list_max l) x := by
  unfold nat_list_max
  rw [List.foldl_append]
  rfl

theorem nat_list_max_range (n : Nat) : nat_list_max (List.range n) = n - 1 := by
  induction n with
  | zero => rfl
  | succ m ih =>
    rw [List.range_succ, nat_list_max_append_single, ih,
      max_eq_right (Nat.sub_le m 1)]
    omega

theorem foldl_min_le_init (l : List Nat) : ∀ (a : Nat), l.foldl min a ≤ a := by
  induction l with
  | nil => intro a; simp
  | cons x xs ih =>
    intro a
    calc xs.foldl min (min a x) ≤ min a x := ih (min a x)
    _ ≤ a := min_le_left a x

theorem foldl_min_le_mem (l : List Nat) : ∀ (a x : Nat), x ∈ l → l.foldl min a ≤ x := by
  induction l with
  | nil => intro a x h; simp at h
  | cons y ys ih =>
    intro a x h
    rcases List.mem_cons.mp h with h1 | h1
    · subst h1
      calc ys.foldl min (min a x) ≤ min a x := foldl_min_le_init ys (min a x)
      _ ≤ x := min_le_right a x
    · exact ih (min a y) x h1

theorem foldl_min_mem_or_init (l : List Nat) :
    ∀ (a : Nat), l.foldl min a = a ∨ l.foldl min a ∈ l := by
  induction l with
  | nil => intro a; exact Or.inl rfl
  | cons y ys ih =>
    intro a
    rcases ih (min a y) with h | h
    · rcases Nat.le_total a y with hle | hle
      · left; simp only [List.foldl_cons]; rw [h]; exact min_eq_left hle
      · right; simp only [List.foldl_cons]
        rw [h, min_eq_right hle]
        exact List.mem_cons_self y ys
    · right
      simp only [List.foldl_cons]
      exact List.mem_cons_of_mem y h

theorem nat_list_min_le (l : List Nat) (x : Nat) (h : x ∈ l) : nat_list_min l ≤ x := by
  cases l with
  | nil => simp at h
  | cons y ys =>
    rcases List.mem_cons.mp h with h1 | h1
    · subst h1; exact foldl_min_le_init ys x
    · exact foldl_min_le_mem ys y x h1

theorem nat_list_min_mem (l : List Nat) (h : l ≠ []) : nat_list_min l ∈ l := by
  cases l with
  | nil => exact absurd rfl h
  | cons y ys =>
    rcases foldl_min_mem_or_init ys y with h1 | h1
    · rw [nat_list_min, h1]; exact List.mem_cons_self y ys
    · exact List.mem_cons_of_mem y h1

/-! ## Facts about assigned matchday indices -/

theorem matchday_mem_md_order (ms : List LeagueMatch) (dv : LeagueDivision) (m : LeagueMatch)
    (h : m ∈ matches_of_div ms dv) : m.matchday ∈ md_order ms dv := by
  unfold md_order
  rw [gu_mem]
  exact List.mem_map_of_mem (fun m => m.matchday) h

theorem assigned_idx_lt (ms : List LeagueMatch) (dv : LeagueDivision) (m : LeagueMatch)
    (h : m ∈ matches_of_div ms dv) : assigned_idx ms dv m < (md_order ms dv).length :=
  idx_of_lt_length _ _ (matchday_mem_md_order ms dv m h)

theorem assigned_idx_surj (ms : List LeagueMatch) (dv : LeagueDivision) (i : Nat)
    (h : i < (md_order ms dv).length) :
    ∃ m, m ∈ matches_of_div ms dv ∧ assigned_idx ms dv m = i := by
  have hmem : (md_order ms dv).get ⟨i, h⟩ ∈ md_order ms dv := List.get_mem _ i h
  have hmem2 : (md_order ms dv).get ⟨i, h⟩ ∈ (matches_of_div ms dv).map (fun m => m.matchday) := by
    have h2 := hmem
    unfold md_order at h2
    exact (gu_mem _ _).mp h2
  rcases List.mem_map.mp hmem2 with ⟨m, hm, he⟩
  refine ⟨m, hm, ?_⟩
  unfold assigned_idx
  rw [he]
  exact idx_of_get (md_order ms dv) (gu_nodup _) i h

theorem nat_list_max_assigned (ms : List LeagueMatch) (dv : LeagueDivision)
    (hne : matches_of_div ms dv ≠ []) :
    nat_list_max ((matches_of_div ms dv).map (assigned_idx ms dv)) =
      (md_order ms dv).length - 1 := by
  have hlen : 0 < (md_order ms dv).length := by
    rcases List.exists_mem_of_ne_nil _ hne with ⟨m, hm⟩
    have h1 := matchday_mem_md_order ms dv m hm
    exact List.length_pos.mpr (List.ne_nil_of_mem h1)
  apply Nat.le_antisymm
  · apply nat_list_max_le
    intro x hx
    rcases List.mem_map.mp hx with ⟨m, hm, he⟩
    have h1 := assigned_idx_lt ms dv m hm
    omega
  · rcases assigned_idx_surj ms dv ((md_order ms dv).length - 1) (by omega) with ⟨m, hm, he⟩
    have h1 : (md_order ms dv).length - 1 ∈ (matches_of_div ms dv).map (assigned_idx ms dv) :=
      he ▸ List.mem_map_of_mem (assigned_idx ms dv) hm
    exact le_nat_list_max _ _ h1

/-- Claim C2: `get_max_matchday_stats` returns the maximum assigned
matchday index when every match of the division is played; `max 0 (k-1)`
when the smallest assigned index among unplayed matches of the division
is `k`; `0` when the division has zero matches; and `1` when no division
is selected. -/
theorem getMaxMatchdayStats_spec (ms : List LeagueMatch) (division : Option LeagueDivision) :
    (division = none → get_max_matchday_stats ms division = 1) ∧
    (∀ dv, division = some dv → matches_of_div ms dv = [] →
      get_max_matchday_stats ms division = 0) ∧
    (∀ dv, division = some dv → matches_of_div ms dv ≠ [] →
      (∀ m ∈ matches_of_div ms dv, is_match_played m = true) →
      get_max_matchday_stats ms division =
        (nat_list_max ((matches_of_div ms dv).map (assigned_idx ms dv)) : Int)) ∧
    (∀ dv k, division = some dv → k ∈ unplayed_idxs ms dv →
      (∀ j ∈ unplayed_idxs ms dv, k ≤ j) →
      get_max_matchday_stats ms division = max 0 ((k : Int) - 1)) := by
  refine ⟨?_, ?_, ?_, ?_⟩
  · intro h; subst h; rfl
  · intro dv h hempty
    subst h
    have hmd : md_order ms dv = [] := by
      unfold md_order
      rw [hempty]
      rfl
    simp [get_max_matchday_stats, hmd]
  · intro dv h hne hall
    subst h
    have hunp : unplayed_idxs ms dv = [] := by
      unfold unplayed_idxs
      rw [List.filter_eq_nil_iff.mpr ?_]
      · rfl
      · intro m hm
        rw [hall m hm]
        simp
    have hlen : 0 < (md_order ms dv).length := by
      rcases List.exists_mem_of_ne_nil _ hne with ⟨m, hm⟩
      exact List.length_pos.mpr (List.ne_nil_of_mem (matchday_mem_md_order ms dv m hm))
    simp only [get_max_matchday_stats]
    rw [if_neg (by omega), hunp]
    simp [nat_list_max_range, nat_list_max_assigned ms dv hne]
  · intro dv k h hk hmin
    subst h
    have hne : unplayed_idxs ms dv ≠ [] := List.ne_nil_of_mem hk
    have hlen : 0 < (md_order ms dv).length := by
      have hk2 := hk
      unfold unplayed_idxs at hk2
      rcases List.mem_map.mp hk2 with ⟨m, hm, _⟩
      have hm2 : m ∈ matches_of_div ms dv := (List.mem_filter.mp hm).1
      exact List.length_pos.mpr (List.ne_nil_of_mem (matchday_mem_md_order ms dv m hm2))
    have hminval : nat_list_min (unplayed_idxs ms dv) = k :=
      Nat.le_antisymm (nat_list_min_le _ _ hk) (hmin _ (nat_list_min_mem _ hne))
    simp only [get_max_matchday_stats]
    rw [if_neg (by omega), if_neg (by
      intro hc
      exact hne (List.length_eq_zero.mp hc)), hminval]

/-- Concrete instantiation of `getMaxMatchdayStats_spec`: a division with
one played and one unplayed match (earliest unplayed index 1) yields
cutoff 0, and no selected division yields 1. -/
theorem getMaxMatchdayStats_spec_witness :
    get_max_matchday_stats
      [{ id := 1, leagueDivisionId := 7, matchday := "MD1", detail := [], title := "a",
         periods := [{ entries := [] }] },
       { id := 2, leagueDivisionId := 7, matchday := "MD2", detail := [], title := "b",
         periods := [] }] (some { id := 7, name := "D1" }) = 0 ∧
    get_max_matchday_stats
      [{ id := 1, leagueDivisionId := 7, matchday := "MD1", detail := [], title := "a",
         periods := [{ entries := [] }] },
       { id := 2, leagueDivisionId := 7, matchday := "MD2", detail := [], title := "b",
         periods := [] }] none = 1 := by
  constructor
  · exact (getMaxMatchdayStats_spec _ _).2.2.2 _ 1 rfl (by decide) (by decide)
  · exact (getMaxMatchdayStats_spec _ _).1 rfl

/-- Claim C3: `filter_matches` keeps exactly the matches of the selected
division whose assigned matchday index lies in the inclusive range and,
when a team name is given, in whose team-detail list that name appears;
with no division selected it returns the input list unchanged. -/
theorem filterMatches_spec (ms : List LeagueMatch) (team_name : Option String)
    (division : Option LeagueDivision) (a b : Nat) :
    (division = none → filter_matches ms team_name division (a, b) = ms) ∧
    (∀ dv, division = some dv →
      filter_matches ms team_name division (a, b) =
        ms.filter (fun m =>
          (m.leagueDivisionId == dv.id) &&
          (decide (a ≤ assigned_idx ms dv m) && decide (assigned_idx ms dv m ≤ b)) &&
          (match team_name with
           | none => true
           | some nm => m.detail.any (fun md => md.teamName == nm)))) := by
  constructor
  · intro h; subst h; rfl
  · intro dv h
    subst h
    show (matches_of_div ms dv).filter _ = _
    unfold matches_of_div
    rw [List.filter_filter]
    apply List.filter_congr
    intro m hm
    by_cases h1 : idx_of (md_order ms dv) m.matchday < a
    · have h2 : ¬ a ≤ assigned_idx ms dv m := by
        unfold assigned_idx; omega
      simp [h1, h2]
    · by_cases h3 : b < idx_of (md_order ms dv) m.matchday
      · have h4 : ¬ assigned_idx ms dv m ≤ b := by
          unfold assigned_idx; omega
        simp [h1, h3, h4]
      · have h5 : a ≤ assigned_idx ms dv m := by
          unfold assigned_idx; omega
        have h6 : assigned_idx ms dv m ≤ b := by
          unfold assigned_idx; omega
        simp [h1, h3, h5, h6, Bool.and_comm]

/-- Concrete instantiation of `filterMatches_spec`: with a division and a
team filter it keeps exactly the in-range match listing the team, and
with no division it is the identity. -/
theorem filterMatches_spec_witness :
    filter_matches
      [{ id := 1, leagueDivisionId := 7, matchday := "A",
         detail := [{ teamName := "X" }, { teamName := "Y" }], periods := [], title := "t1" },
       { id := 2, leagueDivisionId := 7, matchday := "B",
         detail := [{ teamName := "X" }, { teamName := "W" }], periods := [], title := "t2" }]
      (some "X") (some { id := 7, name := "D1" }) (0, 0) =
      [{ id := 1, leagueDivisionId := 7, matchday := "A",
         detail := [{ teamName := "X" }, { teamName := "Y" }], periods := [], title := "t1" }] ∧
    filter_matches
      [{ id := 1, leagueDivisionId := 7, matchday := "A",
         detail := [{ teamName := "X" }, { teamName := "Y" }], periods := [], title := "t1" }]
      none none (0, 5) =
      [{ id := 1, leagueDivisionId := 7, matchday := "A",
         detail := [{ teamName := "X" }, { teamName := "Y" }], periods := [], title := "t1" }] := by
  constructor
  · rw [(filterMatches_spec _ _ _ 0 0).2 _ rfl]
    decide
  · exact (filterMatches_spec _ _ _ 0 5).1 rfl

theorem mem_players_stats_id (teams : List LeagueTeam) (ds : Option LeagueDivision)
    (ts : Option String) (pid : Int) :
    pid ∈ players_stats_id teams ds ts ↔
      ∃ t ∈ teams, team_passes_filters ds ts t = true ∧
        pid ∈ (t.players.filter (fun l => l.active)).map (fun l => l.player.id) := by
  unfold players_stats_id
  rw [List.mem_flatMap]
  constructor
  · rintro ⟨t, ht, hmem⟩
    by_cases hp : team_passes_filters ds ts t
    · exact ⟨t, ht, hp, by simpa [hp] using hmem⟩
    · simp [hp] at hmem
  · rintro ⟨t, ht, hp, hmem⟩
    exact ⟨t, ht, by simpa [hp] using hmem⟩

theorem get_stats_mem_elim (mf : List LeagueMatch) (teams : List LeagueTeam)
    (players : List LeaguePlayer) (ds : Option LeagueDivision) (ts : Option String)
    (ps : PlayerStatSheet) (h : ps ∈ get_stats mf teams players ds ts) :
    ∃ p, ps.player = some p ∧
      ∃ t ∈ teams, team_passes_filters ds ts t = true ∧
        p.id ∈ (t.players.filter (fun l => l.active)).map (fun l => l.player.id) := by
  simp only [get_stats] at h
  rw [List.mem_filter] at h
  rcases h with ⟨_, hpred⟩
  cases hp : ps.player with
  | none => rw [hp] at hpred; simp at hpred
  | some p =>
    rw [hp] at hpred
    exact ⟨p, rfl, (mem_players_stats_id teams ds ts p.id).mp (List.elem_iff.mp hpred)⟩

/-- Claim C4: every sheet in the output of `get_stats` has a resolved
player whose id is on the active roster of some team passing the division
and team filters; a player active on no passing team never appears in the
aggregate; and an orphan sheet (no resolvable player) is retained in the
admin missing-stats list. -/
theorem getStats_roster_spec (mf : List LeagueMatch) (teams : List LeagueTeam)
    (players : List LeaguePlayer) (ds : Option LeagueDivision) (ts : Option String) :
    (∀ ps ∈ get_stats mf teams players ds ts, ∃ p, ps.player = some p ∧
      ∃ t ∈ teams, team_passes_filters ds ts t = true ∧
        p.id ∈ (t.players.filter (fun l => l.active)).map (fun l => l.player.id)) ∧
    (∀ pid : Int,
      (∀ t ∈ teams, team_passes_filters ds ts t = true →
        pid ∉ (t.players.filter (fun l => l.active)).map (fun l => l.player.id)) →
      ∀ ps ∈ get_stats mf teams players ds ts, ∀ p, ps.player = some p → p.id ≠ pid) ∧
    (∀ m ∈ mf, ∀ ps ∈ get_statsheet_list players m, ps.player = none →
      (ps, m) ∈ missing_stats mf players) := by
  refine ⟨?_, ?_, ?_⟩
  · intro ps hps
    exact get_stats_mem_elim mf teams players ds ts ps hps
  · intro pid hnone ps hps p hp
    rcases get_stats_mem_elim mf teams players ds ts ps hps with ⟨q, hq, t, ht, hpass, hmem⟩
    rw [hp] at hq
    cases hq
    intro he
    exact hnone t ht hpass (he ▸ hmem)
  · intro m hm ps hps hnone
    unfold missing_stats
    rw [List.mem_flatMap]
    refine ⟨m, hm, ?_⟩
    rw [List.mem_map]
    refine ⟨ps, List.mem_filter.mpr ⟨hps, ?_⟩, rfl⟩
    rw [hnone]
    rfl

/-- Concrete instantiation of `getStats_roster_spec`: an orphan sheet
produced from a filtered match appears in the missing-stats list. -/
theorem getStats_roster_spec_witness :
    ({ player := none, player_name := "ghost", teamName := "X", period_nb := 1,
       goals := 1, gametime := 600 },
     ({ id := 1, leagueDivisionId := 7, matchday := "A", detail := [{ teamName := "X" }],
        periods := [{ entries := [{ playerName := "ali", teamName := "X", goals := 2, gametime := 600 },
                                  { playerName := "ghost", teamName := "X", goals := 1, gametime := 600 }] }],
        title := "t" } : LeagueMatch)) ∈
      missing_stats
        [{ id := 1, leagueDivisionId := 7, matchday := "A", detail := [{ teamName := "X" }],
           periods := [{ entries := [{ playerName := "ali", teamName := "X", goals := 2, gametime := 600 },
                                     { playerName := "ghost", teamName := "X", goals := 1, gametime := 600 }] }],
           title := "t" }]
        [{ id := 3, name := "Alice", nicks := ["ali"] }] := by
  refine (getStats_roster_spec
      [{ id := 1, leagueDivisionId := 7, matchday := "A", detail := [{ teamName := "X" }],
         periods := [{ entries := [{ playerName := "ali", teamName := "X", goals := 2, gametime := 600 },
                                   { playerName := "ghost", teamName := "X", goals := 1, gametime := 600 }] }],
         title := "t" }]
      [{ id := 5, name := "X",
         divisions := [{ leagueDivisionId := 7 }],
         players := [{ player := { id := 3, name := "Alice", nicks := ["ali"] }, active := true }] }]
      [{ id := 3, name := "Alice", nicks := ["ali"] }]
      (some { id := 7, name := "D1" }) (some "X")).2.2 _ ?_ _ ?_ rfl
  · decide
  · decide

/-- Claim C5: with normalization enabled `treat_stat` divides the value by
`observed_time / (GAME_TIME * 2 * 60)`; with normalization disabled it
returns the raw value for every observed time, including zero. -/
theorem treatStat_spec :
    (∀ v t : ℚ, treat_stat v true t = v / (t / (GAME_TIME * 2 * 60))) ∧
    (∀ v t : ℚ, t ≠ 0 → treat_stat v true t = v * (GAME_TIME * 2 * 60) / t) ∧
    (∀ v t : ℚ, treat_stat v false t = v) ∧
    (∀ v : ℚ, treat_stat v false 0 = v) ∧
    treat_stat 4 true 1800 = 8 / 3 := by
  refine ⟨?_, ?_, ?_, ?_, ?_⟩
  · intro v t; rfl
  · intro v t ht
    show v / (t / (GAME_TIME * 2 * 60)) = v * (GAME_TIME * 2 * 60) / t
    rw [div_div_eq_mul_div]
  · intro v t; rfl
  · intro v; rfl
  · norm_num [treat_stat, GAME_TIME]

/-- Concrete instantiation of `treatStat_spec`: normalizing 4 goals over
1800 observed seconds scales by 1200/1800. -/
theorem treatStat_spec_witness :
    treat_stat 4 true 1800 = 4 * (GAME_TIME * 2 * 60) / 1800 :=
  treatStat_spec.2.1 4 1800 (by norm_num)

/-- Claim C8: the displayed pass-success column divides successful by
attempted passes with no zero-attempts guard: every aggregated row yields
an output entry; zero attempts yields the degenerate non-crashing value;
nonzero attempts yield the exact quotient. -/
theorem passSuccess_spec (rows : List AggRow) :
    (pass_success_col rows).length = rows.length ∧
    (∀ r ∈ rows, r.passesAttempted = 0 →
      polars_div r.passesSuccessful r.passesAttempted = none) ∧
    (∀ r ∈ rows, r.passesAttempted ≠ 0 →
      polars_div r.passesSuccessful r.passesAttempted =
        some (r.passesSuccessful / r.passesAttempted)) := by
  refine ⟨?_, ?_, ?_⟩
  · exact List.length_map rows _
  · intro r _ h
    simp [polars_div, h]
  · intro r _ h
    simp [polars_div, h]

/-- Concrete instantiation of `passSuccess_spec`: a zero-attempts row
still produces a (degenerate) entry and a normal row produces the
quotient. -/
theorem passSuccess_spec_witness :
    (pass_success_col [{ passesSuccessful := 3, passesAttempted := 0 },
                       { passesSuccessful := 2, passesAttempted := 4 }]).length = 2 ∧
    polars_div (3 : ℚ) 0 = none ∧
    polars_div (2 : ℚ) 4 = some ((2 : ℚ) / 4) := by
  refine ⟨?_, ?_, ?_⟩
  · exact (passSuccess_spec _).1
  · exact (passSuccess_spec [{ passesSuccessful := 3, passesAttempted := 0 }]).2.1 _
      (List.mem_singleton.mpr rfl) rfl
  · exact (passSuccess_spec [{ passesSuccessful := 2, passesAttempted := 4 }]).2.2 _
      (List.mem_singleton.mpr rfl) (by norm_num)

/-! ## Match titles and the export pattern (6_Database_operations.py)

`get_title` (source lines 39-51) builds a match title; the export
(source lines 505-506) reconstructs team names with
`re.match(r".* - (.+) vs (.+)", title)`.  The matcher below implements
the Python regex engine's behaviour for this fixed pattern on
newline-free text: the leading greedy `.*` selects the rightmost
occurrence of " - " whose remainder still matches `(.+) vs (.+)`, and the
greedy first group selects the rightmost " vs " that leaves both groups
nonempty; the trailing group extends to the end of the string. -/

def vsPat : List Char := [' ', 'v', 's', ' ']

def sepPat : List Char := [' ', '-', ' ']

/-- Matches `(.+) vs (.+)` against a character list: splits at the
rightmost occurrence of " vs " that leaves both sides nonempty. -/
def matchVs : List Char → Option (List Char × List Char)
  | [] => none
  | c :: rest =>
    match matchVs rest with
    | some (b, g2) => some (c :: b, g2)
    | none =>
      if vsPat.isPrefixOf rest && decide (4 < rest.length) then some ([c], rest.drop 4)
      else none

/-- Matches `.* - (.+) vs (.+)` (anchored at the start, as `re.match`):
tries the rightmost occurrence of " - " first and falls back leftwards
when the remainder does not match `(.+) vs (.+)`. -/
def matchTitle : List Char → Option (List Char × List Char)
  | [] => none
  | c :: rest =>
    match matchTitle rest with
    | some r => some r
    | none =>
      if sepPat.isPrefixOf (c :: rest) then matchVs ((c :: rest).drop 3) else none

/-- `get_title`, source lines 39-51, on character lists.  Python
`md.isdigit()` is modelled as nonempty-and-all-digits. -/
def get_title (md : List Char) (game_nb : Int) (t1 t2 : List Char) : List Char :=
  if !md.isEmpty && md.all Char.isDigit then
    "MD ".toList ++ (md ++ (sepPat ++ (t1 ++ (vsPat ++ t2))))
  else if game_nb > 1 then
    md ++ (" ".toList ++ ((toString game_nb).toList ++ (sepPat ++ (t1 ++ (vsPat ++ t2)))))
  else
    md ++ (sepPat ++ (t1 ++ (vsPat ++ t2)))

/-- String form of `get_title` used by the import pipeline. -/
def get_title_str (md : String) (game_nb : Int) (t1 t2 : String) : String :=
  String.mk (get_title md.toList game_nb t1.toList t2.toList)

/-- Decidable check that `p` occurs as a contiguous infix of `s`. -/
def hasInfix (p s : List Char) : Bool :=
  (List.range (s.length + 1)).any (fun k => p.isPrefixOf (s.drop k))

example : get_title "5".toList 1 "- X".toList "Y".toList = "MD 5 - - X vs Y".toList := by decide

example : matchTitle "MD 5 - - X vs Y".toList = some ("X".toList, "Y".toList) := by decide

theorem hasInfix_of_self_prefixOf (p l : List Char) (h : p.isPrefixOf l = true) :
    hasInfix p l = true := by
  unfold hasInfix
  apply List.any_eq_true.mpr
  exact ⟨0, List.mem_range.mpr (by omega), by simpa using h⟩

theorem not_prefixOf_drop (p l : List Char) (hp : p ≠ [])
    (h : hasInfix p l = false) : ∀ n, p.isPrefixOf (l.drop n) = false := by
  intro n
  by_cases hn : n ≤ l.length
  · apply Bool.eq_false_iff.mpr
    intro hcontra
    have htrue : hasInfix p l = true := by
      unfold hasInfix
      apply List.any_eq_true.mpr
      exact ⟨n, List.mem_range.mpr (by omega), by simpa using hcontra⟩
    rw [h] at htrue
    exact Bool.false_ne_true htrue
  · rw [List.drop_eq_nil_of_le (by omega)]
    cases p with
    | nil => exact absurd rfl hp
    | cons a as => rfl

theorem hasInfix_false_tail (p : List Char) (x : Char) (l : List Char)
    (h : hasInfix p (x :: l) = false) : hasInfix p l = false := by
  apply Bool.eq_false_iff.mpr
  intro hcontra
  unfold hasInfix at hcontra
  rcases List.any_eq_true.mp hcontra with ⟨k, hk, hpre⟩
  have htrue : hasInfix p (x :: l) = true := by
    unfold hasInfix
    apply List.any_eq_true.mpr
    refine ⟨k + 1, List.mem_range.mpr ?_, by simpa using hpre⟩
    have := List.mem_range.mp hk
    simp
    omega
  rw [h] at htrue
  exact Bool.false_ne_true htrue

theorem matchVs_eq_none (s : List Char)
    (h : ∀ k, 0 < k → vsPat.isPrefixOf (s.drop k) = false) : matchVs s = none := by
  induction s with
  | nil => rfl
  | cons c rest ih =>
    have hrest : matchVs rest = none := by
      apply ih
      intro k hk
      have h2 := h (k + 1) (by omega)
      simpa using h2
    have h1 : vsPat.isPrefixOf rest = false := by
      have h2 := h 1 (by omega)
      simpa using h2
    simp [matchVs, hrest, h1]

theorem matchVs_cons (c : Char) (rest : List Char) :
    matchVs (c :: rest) =
      match matchVs rest with
      | some (b, g2) => some (c :: b, g2)
      | none =>
        if vsPat.isPrefixOf rest && decide (4 < rest.length) then some ([c], rest.drop 4)
        else none := rfl

theorem matchTitle_cons (c : Char) (rest : List Char) :
    matchTitle (c :: rest) =
      match matchTitle rest with
      | some r => some r
      | none =>
        if sepPat.isPrefixOf (c :: rest) then matchVs ((c :: rest).drop 3) else none := rfl

theorem matchVs_append (b : List Char) : ∀ (c : List Char), b ≠ [] → c ≠ [] →
    (∀ k, b.length < k → vsPat.isPrefixOf ((b ++ (vsPat ++ c)).drop k) = false) →
    matchVs (b ++ (vsPat ++ c)) = some (b, c) := by
  induction b with
  | nil => intro c hb _ _; exact absurd rfl hb
  | cons x b' ih =>
    intro c _ hc h
    cases b' with
    | nil =>
      have hnone : matchVs (vsPat ++ c) = none := by
        apply matchVs_eq_none
        intro k hk
        have h2 := h (k + 1) (by simp; omega)
        simpa using h2
      have hpre : vsPat.isPrefixOf (vsPat ++ c) = true :=
        List.isPrefixOf_iff_prefix.mpr (List.prefix_append vsPat c)
      have hlen : (decide (4 < (vsPat ++ c).length)) = true := by
        have hcpos : 0 < c.length := List.length_pos.mpr hc
        apply decide_eq_true
        simp [vsPat]
        omega
      show matchVs (x :: (vsPat ++ c)) = some ([x], c)
      rw [matchVs_cons, hnone]
      simp only [hpre, hlen, Bool.and_self, if_true]
      show some ([x], (vsPat ++ c).drop 4) = some ([x], c)
      rfl
    | cons y b'' =>
      have hmain : matchVs ((y :: b'') ++ (vsPat ++ c)) = some (y :: b'', c) := by
        apply ih c (by simp) hc
        intro k hk
        have hk2 : b''.length + 1 < k := by simpa using hk
        have h2 := h (k + 1) (by simp; omega)
        simpa using h2
      show matchVs (x :: ((y :: b'') ++ (vsPat ++ c))) = some (x :: y :: b'', c)
      rw [matchVs_cons, hmain]

theorem matchTitle_eq_none (s : List Char)
    (h : ∀ k, sepPat.isPrefixOf (s.drop k) = false ∨ matchVs (s.drop (k + 3)) = none) :
    matchTitle s = none := by
  induction s with
  | nil => rfl
  | cons c rest ih =>
    have hrest : matchTitle rest = none := by
      apply ih
      intro k
      have h2 := h (k + 1)
      simpa using h2
    rw [matchTitle_cons, hrest]
    rcases h 0 with h0 | h0
    · simp only [List.drop_zero] at h0
      simp [h0]
    · simp only [Nat.zero_add] at h0
      by_cases hp : sepPat.isPrefixOf (c :: rest) = true
      · simp only [hp, if_true]
        simpa using h0
      · simp [Bool.eq_false_iff.mpr hp]

theorem matchTitle_append (a : List Char) : ∀ (body : List Char) (pr : List Char × List Char),
    matchVs body = some pr →
    (∀ k, a.length < k →
      sepPat.isPrefixOf ((a ++ (sepPat ++ body)).drop k) = false ∨
      matchVs ((a ++ (sepPat ++ body)).drop (k + 3)) = none) →
    matchTitle (a ++ (sepPat ++ body)) = some pr := by
  induction a with
  | nil =>
    intro body pr hbody h
    have hrest : matchTitle ('-' :: ' ' :: body) = none := by
      apply matchTitle_eq_none
      intro k
      have h2 := h (k + 1) (by simp)
      simpa using h2
    show matchTitle (' ' :: '-' :: ' ' :: body) = some pr
    rw [matchTitle_cons, hrest]
    have hpre : sepPat.isPrefixOf (' ' :: '-' :: ' ' :: body) = true :=
      List.isPrefixOf_iff_prefix.mpr (List.prefix_append sepPat body)
    simp only [hpre, if_true]
    exact hbody
  | cons x a' ih =>
    intro body pr hbody h
    have hmain : matchTitle (a' ++ (sepPat ++ body)) = some pr := by
      apply ih body pr hbody
      intro k hk
      have h2 := h (k + 1) (by simp; omega)
      simpa using h2
    show matchTitle (x :: (a' ++ (sepPat ++ body))) = some pr
    rw [matchTitle_cons, hmain]

theorem vs_cond_body (t1 t2 : List Char) (hD : hasInfix vsPat t2 = false)
    (hF : (['v', 's', ' '] : List Char).isPrefixOf t2 = false) :
    ∀ k, t1.length < k → vsPat.isPrefixOf ((t1 ++ (vsPat ++ t2)).drop k) = false := by
  have hD' := not_prefixOf_drop vsPat t2 (by simp [vsPat]) hD
  intro k hk
  obtain ⟨j, hj, rfl⟩ : ∃ j, 0 < j ∧ k = t1.length + j := ⟨k - t1.length, by omega, by omega⟩
  rw [List.drop_append]
  match j, hj with
  | 1, _ => rfl
  | 2, _ => rfl
  | 3, _ =>
    show (['v', 's', ' '] : List Char).isPrefixOf t2 = false
    exact hF
  | (j + 4), _ =>
    show vsPat.isPrefixOf (t2.drop j) = false
    exact hD' j

theorem sep_cond_body (t1 : List Char) : ∀ (t2 : List Char),
    hasInfix sepPat t1 = false → hasInfix sepPat t2 = false → hasInfix vsPat t2 = false →
    (['v', 's', ' '] : List Char).isPrefixOf t2 = false →
    ∀ i, sepPat.isPrefixOf ((t1 ++ (vsPat ++ t2)).drop i) = false ∨
      matchVs ((t1 ++ (vsPat ++ t2)).drop (i + 3)) = none := by
  induction t1 with
  | nil =>
    intro t2 _ hC hD hF i
    have hD' := not_prefixOf_drop vsPat t2 (by simp [vsPat]) hD
    have hC' := not_prefixOf_drop sepPat t2 (by simp [sepPat]) hC
    match i with
    | 0 => left; rfl
    | 1 => left; rfl
    | 2 => left; rfl
    | 3 =>
      right
      show matchVs (t2.drop 2) = none
      apply matchVs_eq_none
      intro k hk
      rw [List.drop_drop]
      exact hD' _
    | (i + 4) =>
      left
      show sepPat.isPrefixOf (t2.drop i) = false
      exact hC' i
  | cons x t1' ih =>
    intro t2 hA hC hD hF i
    have hA' : hasInfix sepPat t1' = false := hasInfix_false_tail _ _ _ hA
    match i with
    | (i + 1) =>
      have hmain := ih t2 hA' hC hD hF i
      have e1 : ((x :: t1') ++ (vsPat ++ t2)).drop (i + 1) = (t1' ++ (vsPat ++ t2)).drop i := by
        simp
      have e2 : ((x :: t1') ++ (vsPat ++ t2)).drop (i + 1 + 3) =
          (t1' ++ (vsPat ++ t2)).drop (i + 3) := by
        have e3 : i + 1 + 3 = (i + 3) + 1 := by omega
        rw [e3]
        simp
      rw [e1, e2]
      exact hmain
    | 0 =>
      cases t1' with
      | nil =>
        left
        show ((' ' == x) && (['-', ' '] : List Char).isPrefixOf (vsPat ++ t2)) = false
        rw [show (['-', ' '] : List Char).isPrefixOf (vsPat ++ t2) = false from rfl]
        exact Bool.and_false _
      | cons y t1'' =>
        cases t1'' with
        | nil =>
          right
          show matchVs ('v' :: 's' :: ' ' :: t2) = none
          apply matchVs_eq_none
          intro k hk
          have hD' := not_prefixOf_drop vsPat t2 (by simp [vsPat]) hD
          match k, hk with
          | 1, _ => rfl
          | 2, _ =>
            show (['v', 's', ' '] : List Char).isPrefixOf t2 = false
            exact hF
          | (k + 3), _ =>
            show vsPat.isPrefixOf (t2.drop k) = false
            exact hD' k
        | cons z rest' =>
          cases hp : sepPat.isPrefixOf ((x :: y :: z :: rest') ++ (vsPat ++ t2)) with
          | false => left; exact hp
          | true =>
            exfalso
            rcases List.isPrefixOf_iff_prefix.mp hp with ⟨tail2, heq⟩
            rw [show sepPat ++ tail2 = ' ' :: '-' :: ' ' :: tail2 from rfl] at heq
            injection heq with h1 heq
            injection heq with h2 heq
            injection heq with h3 heq
            subst h1; subst h2; subst h3
            have hp2 : sepPat.isPrefixOf (' ' :: '-' :: ' ' :: rest') = true :=
              List.isPrefixOf_iff_prefix.mpr ⟨rest', rfl⟩
            have htrue := hasInfix_of_self_prefixOf _ _ hp2
            rw [hA] at htrue
            exact Bool.false_ne_true htrue

theorem title_roundtrip_core (pre t1 t2 : List Char)
    (h1 : t1 ≠ []) (h2 : t2 ≠ [])
    (hA : hasInfix sepPat t1 = false)
    (hC : hasInfix sepPat t2 = false) (hD : hasInfix vsPat t2 = false)
    (hE : t1.head? ≠ some '-')
    (hF : (['v', 's', ' '] : List Char).isPrefixOf t2 = false) :
    matchTitle (pre ++ (sepPat ++ (t1 ++ (vsPat ++ t2)))) = some (t1, t2) := by
  apply matchTitle_append
  · exact matchVs_append t1 t2 h1 h2 (vs_cond_body t1 t2 hD hF)
  · intro k hk
    obtain ⟨j, hj, rfl⟩ : ∃ j, 0 < j ∧ k = pre.length + j := ⟨k - pre.length, by omega, by omega⟩
    rw [List.drop_append]
    rw [show pre.length + j + 3 = pre.length + (j + 3) from by omega]
    rw [List.drop_append]
    match j, hj with
    | 1, _ => left; rfl
    | 2, _ =>
      left
      cases t1 with
      | nil => exact absurd rfl h1
      | cons u t1r =>
        have hu : ('-' == u) = false := by
          apply beq_eq_false_iff_ne.mpr
          intro he
          exact hE (by rw [← he]; rfl)
        show (('-' == u) && (([' '] : List Char).isPrefixOf (t1r ++ (vsPat ++ t2)))) = false
        rw [hu]
        exact Bool.false_and _
    | (j + 3), _ =>
      rcases sep_cond_body t1 t2 hA hC hD hF j with hcase | hcase
      · left; exact hcase
      · right; exact hcase

/-- Claim C9 (amended): for a match row whose team names are nonempty,
contain neither " vs " nor " - " and no newline, whose first team name
does not start with the character '-', and whose second team name does
not start with "vs ", applying the export pattern ".* - (.+) vs (.+)" to
the title produced by `get_title` recovers exactly the two team names,
for every matchday label (numeric or not, itself newline-free) and every
game number. -/
theorem title_roundtrip_amended (md t1 t2 : List Char) (gn : Int)
    (h1 : t1 ≠ []) (h2 : t2 ≠ [])
    (hA : hasInfix sepPat t1 = false) (hB : hasInfix vsPat t1 = false)
    (hC : hasInfix sepPat t2 = false) (hD : hasInfix vsPat t2 = false)
    (hE : t1.head? ≠ some '-')
    (hF : (['v', 's', ' '] : List Char).isPrefixOf t2 = false)
    (hN1 : ¬ '\n' ∈ md) (hN2 : ¬ '\n' ∈ t1) (hN3 : ¬ '\n' ∈ t2) :
    matchTitle (get_title md gn t1 t2) = some (t1, t2) := by
  unfold get_title
  by_cases hd : (!md.isEmpty && md.all Char.isDigit) = true
  · rw [if_pos hd]
    rw [show "MD ".toList ++ (md ++ (sepPat ++ (t1 ++ (vsPat ++ t2)))) =
        ("MD ".toList ++ md) ++ (sepPat ++ (t1 ++ (vsPat ++ t2))) from
      (List.append_assoc _ _ _).symm]
    exact title_roundtrip_core _ t1 t2 h1 h2 hA hC hD hE hF
  · rw [if_neg hd]
    by_cases hg : gn > 1
    · rw [if_pos hg]
      rw [show md ++ (" ".toList ++ ((toString gn).toList ++ (sepPat ++ (t1 ++ (vsPat ++ t2))))) =
          (md ++ (" ".toList ++ (toString gn).toList)) ++ (sepPat ++ (t1 ++ (vsPat ++ t2))) from by
        simp [List.append_assoc]]
      exact title_roundtrip_core _ t1 t2 h1 h2 hA hC hD hE hF
    · rw [if_neg hg]
      exact title_roundtrip_core md t1 t2 h1 h2 hA hC hD hE hF

/-- Claim C9 counterexample: the team names "- X" and "Y" contain neither
" vs " nor " - ", yet the export pattern applied to the title built from
matchday "5", game number 1 recovers the groups ("X", "Y"), not the
original names: the greedy ".*" binds to the later " - " occurrence
created by the "- " at the start of Team1_name. -/
theorem title_roundtrip_counterexample :
    hasInfix vsPat ("- X".toList) = false ∧ hasInfix sepPat ("- X".toList) = false ∧
    hasInfix vsPat ("Y".toList) = false ∧ hasInfix sepPat ("Y".toList) = false ∧
    matchTitle (get_title ("5".toList) 1 ("- X".toList) ("Y".toList)) =
      some ("X".toList, "Y".toList) ∧
    "X".toList ≠ "- X".toList := by
  decide

/-- Concrete instantiation of `title_roundtrip_amended` on an alphabetic
matchday with game number 2. -/
theorem title_roundtrip_amended_witness :
    matchTitle (get_title ("Cup".toList) 2 ("Alpha FC".toList) ("Beta United".toList)) =
      some ("Alpha FC".toList, "Beta United".toList) := by
  apply title_roundtrip_amended <;> decide

/-! ## Data model of the import console (6_Database_operations.py)

The database is a record of tables; each creation step reads a sheet of
the parsed workbook and either inserts rows or fails (`Except.error`
models a Python exception).  A missing sheet models a `read_excel`
failure; an empty database table models the `KeyError` that
`pd.DataFrame([]).loc[:, ["id", "name"]]` raises; an unmatched division
name in the Matches sheet models the `ValueError` that
`int(NaN)` raises after the left merge.  `Date`, `Time`, `Defwin`,
`Add_red`, `Add_blue` and `Replay` are carried opaquely (no claim
depends on them); date parsing is not modelled. -/

structure SeasonRec where
  id : Int
  name : String
deriving DecidableEq

structure DivisionRec where
  id : Int
  name : String
  leagueSeasonId : Int
deriving DecidableEq

structure TeamRec where
  id : Int
  name : String
  initials : String
deriving DecidableEq

structure TDRec where
  leagueTeamId : Int
  leagueDivisionId : Int
deriving DecidableEq

structure PlayerRec where
  id : Int
  name : String
  nicks : List String
deriving DecidableEq

structure PTRec where
  leaguePlayerId : Int
  leagueTeamId : Int
  active : Bool
deriving DecidableEq

structure MatchRec where
  id : Int
  leagueDivisionId : Int
  matchday : String
  gameNumber : Int
  title : String
deriving DecidableEq

structure MDRec where
  leagueMatchId : Int
  leagueTeamId : Int
  startsRed : Bool
  home : Bool
deriving DecidableEq

structure DBState where
  leagueseason : List SeasonRec
  leaguedivision : List DivisionRec
  leagueteam : List TeamRec
  leagueteamdivisions : List TDRec
  leagueplayer : List PlayerRec
  leagueplayerteams : List PTRec
  leaguematch : List MatchRec
  leaguematchdetail : List MDRec
deriving DecidableEq

/-- One row of the Teams sheet. -/
structure TeamSheetRow where
  Division_name : String
  name : String
  initials : String
deriving DecidableEq

/-- One row of the Players sheet: index column `Player`, `nickN` columns,
the current `Team` column and the historical `team*` columns. -/
structure PlayerSheetRow where
  Player : String
  nicks : List String
  Team : String
  old_teams : List String
deriving DecidableEq

/-- One row of the Matches sheet. -/
structure MatchSheetRow where
  id : Int
  Division_name : String
  Matchday : String
  Game_number : Int
  Team1_name : String
  Team2_name : String
  Inverse : Int
deriving DecidableEq

/-- The parsed workbook: `none` for a sheet models a `read_excel`
failure for that sheet name. -/
structure Workbook where
  season : Option (List String)
  divisions : Option (List String)
  teams : Option (List TeamSheetRow)
  players : Option (List PlayerSheetRow)
  matchesSheet : Option (List MatchSheetRow)
deriving DecidableEq

def read_sheet {α : Type} (s : Option α) : Except String α :=
  match s with
  | none => Except.error "read_excel failed: sheet not found"
  | some x => Except.ok x

/-- The pandas `set_index("name").to_dict("dict")["id"]` lookup used by
the relationship steps: exact string match, later duplicate rows
overwrite earlier ones, and a name absent from the dict is sentineled to
`-1` by the `if ... in teams_dict.keys() else -1` guard at the call
sites. -/
def name_id_lookup (tbl : List (Int × String)) (nm : String) : Int :=
  match (tbl.filter (fun r => r.2 == nm)).getLast? with
  | some r => r.1
  | none => -1

/-- `create_season`, source lines 54-59: reads the Season sheet and
inserts its first `name` cell (`season_df["name"][0]` raises on an empty
sheet). -/
def create_season (db : DBState) (wb : Workbook) : Except String (SeasonRec × DBState) :=
  match read_sheet wb.season with
  | Except.error e => Except.error e
  | Except.ok rows =>
    match rows with
    | [] => Except.error "IndexError: no season name"
    | nm :: _ =>
      let s : SeasonRec := { id := (db.leagueseason.length : Int) + 1, name := nm }
      Except.ok (s, { db with leagueseason := db.leagueseason ++ [s] })

/-- `create_divisions`, source lines 62-75: inserts one division per
`name` cell, all referencing the season created in step 1. -/
def create_divisions (db : DBState) (wb : Workbook) (season : SeasonRec) :
    Except String DBState :=
  match read_sheet wb.divisions with
  | Except.error e => Except.error e
  | Except.ok names =>
    let base : Int := (db.leaguedivision.length : Int)
    let newRows := (names.enum.map (fun p =>
      ({ id := base + (p.1 : Int) + 1, name := p.2, leagueSeasonId := season.id } : DivisionRec)))
    Except.ok { db with leaguedivision := db.leaguedivision ++ newRows }

/-- `create_teams`, source lines 78-88: drops the `Division_name` column
and inserts the team rows. -/
def create_teams (db : DBState) (wb : Workbook) : Except String DBState :=
  match read_sheet wb.teams with
  | Except.error e => Except.error e
  | Except.ok rows =>
    let base : Int := (db.leagueteam.length : Int)
    let newRows := (rows.enum.map (fun p =>
      ({ id := base + (p.1 : Int) + 1, name := p.2.name, initials := p.2.initials } : TeamRec)))
    Except.ok { db with leagueteam := db.leagueteam ++ newRows }

/-- The `(team_id, division_id)` series built by
`create_team_divisions_relationship` (source lines 106-123): each sheet
row's names resolved by exact match, `-1` when unmatched. -/
def team_divisions_pairs (rows : List TeamSheetRow) (tTbl dTbl : List (Int × String)) :
    List (Int × Int) :=
  rows.map (fun r => (name_id_lookup tTbl r.name, name_id_lookup dTbl r.Division_name))

/-- The relationship rows actually inserted (source lines 125-131): pairs
with a `-1` component are silently skipped. -/
def team_divisions_data (rows : List TeamSheetRow) (tTbl dTbl : List (Int × String)) :
    List TDRec :=
  (team_divisions_pairs rows tTbl dTbl).foldl
    (fun acc kv =>
      if kv.1 != -1 && kv.2 != -1 then
        acc ++ [{ leagueTeamId := kv.1, leagueDivisionId := kv.2 }]
      else acc) []

def team_name_table (db : DBState) : List (Int × String) :=
  db.leagueteam.map (fun t => (t.id, t.name))

def division_name_table (db : DBState) : List (Int × String) :=
  db.leaguedivision.map (fun d => (d.id, d.name))

def player_name_table (db : DBState) : List (Int × String) :=
  db.leagueplayer.map (fun p => (p.id, p.name))

/-- `create_team_divisions_relationship`, source lines 91-133.  Building
a DataFrame from an empty `find_many` result and selecting
`["id", "name"]` raises a `KeyError`, modelled by the emptiness guards. -/
def create_team_divisions_relationship (db : DBState) (wb : Workbook) :
    Except String DBState :=
  match read_sheet wb.teams with
  | Except.error e => Except.error e
  | Except.ok rows =>
    if db.leagueteam.isEmpty then Except.error "KeyError: empty teams table"
    else if db.leaguedivision.isEmpty then Except.error "KeyError: empty divisions table"
    else
      Except.ok { db with leagueteamdivisions :=
        db.leagueteamdivisions ++
          team_divisions_data rows (team_name_table db) (division_name_table db) }

/-- `create_players`, source lines 136-153: inserts one player per
Players-sheet row with its nickname list. -/
def create_players (db : DBState) (wb : Workbook) : Except String DBState :=
  match read_sheet wb.players with
  | Except.error e => Except.error e
  | Except.ok rows =>
    let base : Int := (db.leagueplayer.length : Int)
    let newRows := (rows.enum.map (fun p =>
      ({ id := base + (p.1 : Int) + 1, name := p.2.Player, nicks := p.2.nicks } : PlayerRec)))
    Except.ok { db with leagueplayer := db.leagueplayer ++ newRows }

/-- The active player/team rows built by
`create_team_players_relationship` (source lines 169-191): both ids
resolved by exact name match, rows with a `-1` component skipped. -/
def team_players_active_data (rows : List PlayerSheetRow) (pTbl tTbl : List (Int × String)) :
    List PTRec :=
  (rows.map (fun r => (name_id_lookup pTbl r.Player, name_id_lookup tTbl r.Team))).foldl
    (fun acc kv =>
      if kv.1 != -1 && kv.2 != -1 then
        acc ++ [{ leaguePlayerId := kv.1, leagueTeamId := kv.2, active := true }]
      else acc) []

/-- One cell of the historical `team*` columns: a missing cell (the
rectangular frame's NaN padding) is not a dict key, hence `-1`. -/
def old_team_cell (tTbl : List (Int × String)) (r : PlayerSheetRow) (j : Nat) : Int :=
  match r.old_teams.get? j with
  | some nm => name_id_lookup tTbl nm
  | none => -1

/-- The inactive player/team rows (source lines 195-206): column-major
over the historical `team*` columns, rows with a `-1` component skipped. -/
def team_players_inactive_data (rows : List PlayerSheetRow) (pTbl tTbl : List (Int × String)) :
    List PTRec :=
  (List.range (rows.foldl (fun n r => Nat.max n r.old_teams.length) 0)).flatMap (fun j =>
    (rows.map (fun r => (name_id_lookup pTbl r.Player, old_team_cell tTbl r j))).foldl
      (fun acc kv =>
        if kv.1 != -1 && kv.2 != -1 then
          acc ++ [{ leaguePlayerId := kv.1, leagueTeamId := kv.2, active := false }]
        else acc) [])

/-- `create_team_players_relationship`, source lines 156-208. -/
def create_team_players_relationship (db : DBState) (wb : Workbook) :
    Except String DBState :=
  match read_sheet wb.players with
  | Except.error e => Except.error e
  | Except.ok rows =>
    if db.leagueplayer.isEmpty then Except.error "KeyError: empty players table"
    else if db.leagueteam.isEmpty then Except.error "KeyError: empty teams table"
    else
      Except.ok { db with leagueplayerteams :=
        db.leagueplayerteams ++
          team_players_active_data rows (player_name_table db) (team_name_table db) ++
          team_players_inactive_data rows (player_name_table db) (team_name_table db) }

/-- The polars filter shared by `create_matches` (source lines 218-222)
and `create_matches_details` (source lines 269-273): keep a row only if
both team names differ from the sentinel "-". -/
def matches_rows_kept (rows : List MatchSheetRow) : List MatchSheetRow :=
  rows.filter (fun r => r.Team1_name != "-" && r.Team2_name != "-")

/-- The division lookup of `create_matches` (source lines 230-242): the
left merge leaves NaN for an unmatched `Division_name`, and
`int(x["Division_id"])` then raises. -/
def division_id_of (db : DBState) (nm : String) : Except String Int :=
  match (db.leaguedivision.filter (fun d => d.name == nm)).head? with
  | some d => Except.ok d.id
  | none => Except.error "ValueError: cannot convert NaN division id"

def resolve_match_rows (db : DBState) : List MatchSheetRow → Except String (List MatchRec)
  | [] => Except.ok []
  | r :: rs =>
    match division_id_of db r.Division_name with
    | Except.error e => Except.error e
    | Except.ok divId =>
      match resolve_match_rows db rs with
      | Except.error e => Except.error e
      | Except.ok rest =>
        Except.ok ({ id := r.id, leagueDivisionId := divId, matchday := r.Matchday,
                     gameNumber := r.Game_number,
                     title := get_title_str r.Matchday r.Game_number r.Team1_name r.Team2_name }
                   :: rest)

/-- `create_matches`, source lines 211-259. -/
def create_matches (db : DBState) (wb : Workbook) : Except String DBState :=
  match read_sheet wb.matchesSheet with
  | Except.error e => Except.error e
  | Except.ok rows =>
    match resolve_match_rows db (matches_rows_kept rows) with
    | Except.error e => Except.error e
    | Except.ok newRows =>
      Except.ok { db with leaguematch := db.leaguematch ++ newRows }

/-- The detail rows built by `create_matches_details` (source lines
285-319): per kept row, one red-side row when Team1 resolved and one
blue-side row when Team2 resolved. -/
def matches_details_data (rows : List MatchSheetRow) (tTbl : List (Int × String)) :
    List MDRec :=
  rows.foldl (fun acc r =>
    let t1 := name_id_lookup tTbl r.Team1_name
    let t2 := name_id_lookup tTbl r.Team2_name
    let acc1 :=
      if t1 != -1 then
        acc ++ [{ leagueMatchId := r.id, leagueTeamId := t1,
                  startsRed := r.Inverse == 0, home := true }]
      else acc
    if t2 != -1 then
      acc1 ++ [{ leagueMatchId := r.id, leagueTeamId := t2,
                 startsRed := !(r.Inverse == 0), home := false }]
    else acc1) []

/-- `create_matches_details`, source lines 262-323. -/
def create_matches_details (db : DBState) (wb : Workbook) : Except String DBState :=
  match read_sheet wb.matchesSheet with
  | Except.error e => Except.error e
  | Except.ok rows =>
    if db.leagueteam.isEmpty then Except.error "KeyError: empty teams table"
    else
      Except.ok { db with leaguematchdetail :=
        db.leaguematchdetail ++
          matches_details_data (matches_rows_kept rows) (team_name_table db) }

/-! ## Clearing the league database

`clear_league_db` (source lines 326-333) issues `delete_many(where={})`
on seven tables in a fixed order.  Modelled from the spec: the Prisma
schema holding the referential actions is not under `src/`; the spec
states that "on any failure the entire league dataset (all tables) is
deleted", which requires ON DELETE CASCADE on the child/link tables —
the same cascades are also needed for `clear_league_db`'s delete order
to execute at all (players are deleted while player/team link rows still
reference them, and matches while detail rows still reference them).
Each modelled delete therefore empties its own table and the tables
holding rows that reference it (transitively), which for a
`where={}` delete is the whole child table. -/

def delete_all_players (db : DBState) : DBState :=
  { db with leagueplayer := [], leagueplayerteams := [] }

def delete_all_teams (db : DBState) : DBState :=
  { db with leagueteam := [], leagueteamdivisions := [], leagueplayerteams := [] }

def delete_all_playerteams (db : DBState) : DBState :=
  { db with leagueplayerteams := [] }

def delete_all_divisions (db : DBState) : DBState :=
  { db with leaguedivision := [], leagueteamdivisions := [],
            leaguematch := [], leaguematchdetail := [] }

def delete_all_matches (db : DBState) : DBState :=
  { db with leaguematch := [], leaguematchdetail := [] }

def delete_all_matchdetails (db : DBState) : DBState :=
  { db with leaguematchdetail := [] }

def delete_all_seasons (db : DBState) : DBState :=
  { db with leagueseason := [], leaguedivision := [], leagueteamdivisions := [],
            leaguematch := [], leaguematchdetail := [] }

/-- `clear_league_db`, source lines 326-333, in the source's delete
order: players, teams, player/team links, divisions, matches, match
details, seasons. -/
def clear_league_db (db : DBState) : DBState :=
  delete_all_seasons (delete_all_matchdetails (delete_all_matches (delete_all_divisions
    (delete_all_playerteams (delete_all_teams (delete_all_players db))))))

/-- `treat_excel_file`, source lines 349-413: each of the eight creation
steps is individually wrapped; on any step failure the league database
is cleared and `False` is returned, otherwise `True`. -/
def treat_excel_file (db : DBState) (wb : Workbook) : Bool × DBState :=
  match create_season db wb with
  | Except.error _ => (false, clear_league_db db)
  | Except.ok sdb =>
  match create_divisions sdb.2 wb sdb.1 with
  | Except.error _ => (false, clear_league_db sdb.2)
  | Except.ok db2 =>
  match create_teams db2 wb with
  | Except.error _ => (false, clear_league_db db2)
  | Except.ok db3 =>
  match create_team_divisions_relationship db3 wb with
  | Except.error _ => (false, clear_league_db db3)
  | Except.ok db4 =>
  match create_players db4 wb with
  | Except.error _ => (false, clear_league_db db4)
  | Except.ok db5 =>
  match create_team_players_relationship db5 wb with
  | Except.error _ => (false, clear_league_db db5)
  | Except.ok db6 =>
  match create_matches db6 wb with
  | Except.error _ => (false, clear_league_db db6)
  | Except.ok db7 =>
  match create_matches_details db7 wb with
  | Except.error _ => (false, clear_league_db db7)
  | Except.ok db8 => (true, db8)

/-- The eight creation steps chained without the per-step handlers: `ok`
exactly when every step completes without raising. -/
def treat_excel_chain (db : DBState) (wb : Workbook) : Except String DBState :=
  match create_season db wb with
  | Except.error e => Except.error e
  | Except.ok sdb =>
  match create_divisions sdb.2 wb sdb.1 with
  | Except.error e => Except.error e
  | Except.ok db2 =>
  match create_teams db2 wb with
  | Except.error e => Except.error e
  | Except.ok db3 =>
  match create_team_divisions_relationship db3 wb with
  | Except.error e => Except.error e
  | Except.ok db4 =>
  match create_players db4 wb with
  | Except.error e => Except.error e
  | Except.ok db5 =>
  match create_team_players_relationship db5 wb with
  | Except.error e => Except.error e
  | Except.ok db6 =>
  match create_matches db6 wb with
  | Except.error e => Except.error e
  | Except.ok db7 => create_matches_details db7 wb

def except_ok {ε α : Type} (e : Except ε α) : Bool :=
  match e with
  | Except.ok _ => true
  | Except.error _ => false

theorem clear_league_db_empty (db : DBState) :
    clear_league_db db =
      { leagueseason := [], leaguedivision := [], leagueteam := [],
        leagueteamdivisions := [], leagueplayer := [], leagueplayerteams := [],
        leaguematch := [], leaguematchdetail := [] } := rfl

/-- Claim C10: `treat_excel_file` never propagates a step exception: it
is a total function into `Bool × DBState` whose boolean component is
`true` exactly when all eight creation steps complete without raising
(every step is individually wrapped and any step exception yields
`false`). -/
theorem treatExcelFile_total_spec (db : DBState) (wb : Workbook) :
    (treat_excel_file db wb).1 = except_ok (treat_excel_chain db wb) := by
  unfold treat_excel_file treat_excel_chain
  cases create_season db wb with
  | error e => rfl
  | ok sdb =>
    dsimp only
    cases create_divisions sdb.2 wb sdb.1 with
    | error e => rfl
    | ok db2 =>
      dsimp only
      cases create_teams db2 wb with
      | error e => rfl
      | ok db3 =>
        dsimp only
        cases create_team_divisions_relationship db3 wb with
        | error e => rfl
        | ok db4 =>
          dsimp only
          cases create_players db4 wb with
          | error e => rfl
          | ok db5 =>
            dsimp only
            cases create_team_players_relationship db5 wb with
            | error e => rfl
            | ok db6 =>
              dsimp only
              cases create_matches db6 wb with
              | error e => rfl
              | ok db7 =>
                dsimp only
                cases create_matches_details db7 wb with
                | error e => rfl
                | ok db8 => rfl

/-- Claim C1: when any of the eight creation steps of `treat_excel_file`
fails, the function reports failure and every league table of the
resulting database state — season, divisions, teams, team-division
links, players, player-team links, matches, match details — holds zero
rows; moreover the deletion empties every table unconditionally, for
every database state, not just tables populated by earlier steps. -/
theorem treatExcelFile_failure_spec (db : DBState) (wb : Workbook)
    (h : except_ok (treat_excel_chain db wb) = false) :
    (treat_excel_file db wb).1 = false ∧
    (treat_excel_file db wb).2.leagueseason = [] ∧
    (treat_excel_file db wb).2.leaguedivision = [] ∧
    (treat_excel_file db wb).2.leagueteam = [] ∧
    (treat_excel_file db wb).2.leagueteamdivisions = [] ∧
    (treat_excel_file db wb).2.leagueplayer = [] ∧
    (treat_excel_file db wb).2.leagueplayerteams = [] ∧
    (treat_excel_file db wb).2.leaguematch = [] ∧
    (treat_excel_file db wb).2.leaguematchdetail = [] ∧
    (∀ s : DBState, clear_league_db s =
      { leagueseason := [], leaguedivision := [], leagueteam := [],
        leagueteamdivisions := [], leagueplayer := [], leagueplayerteams := [],
        leaguematch := [], leaguematchdetail := [] }) := by
  unfold treat_excel_file
  unfold treat_excel_chain at h
  cases h1 : create_season db wb with
  | error e => exact ⟨rfl, rfl, rfl, rfl, rfl, rfl, rfl, rfl, rfl, fun s => rfl⟩
  | ok sdb =>
    rw [h1] at h
    dsimp only at h ⊢
    cases h2 : create_divisions sdb.2 wb sdb.1 with
    | error e => exact ⟨rfl, rfl, rfl, rfl, rfl, rfl, rfl, rfl, rfl, fun s => rfl⟩
    | ok db2 =>
      rw [h2] at h
      dsimp only at h ⊢
      cases h3 : create_teams db2 wb with
      | error e => exact ⟨rfl, rfl, rfl, rfl, rfl, rfl, rfl, rfl, rfl, fun s => rfl⟩
      | ok db3 =>
        rw [h3] at h
        dsimp only at h ⊢
        cases h4 : create_team_divisions_relationship db3 wb with
        | error e => exact ⟨rfl, rfl, rfl, rfl, rfl, rfl, rfl, rfl, rfl, fun s => rfl⟩
        | ok db4 =>
          rw [h4] at h
          dsimp only at h ⊢
          cases h5 : create_players db4 wb with
          | error e => exact ⟨rfl, rfl, rfl, rfl, rfl, rfl, rfl, rfl, rfl, fun s => rfl⟩
          | ok db5 =>
            rw [h5] at h
            dsimp only at h ⊢
            cases h6 : create_team_players_relationship db5 wb with
            | error e => exact ⟨rfl, rfl, rfl, rfl, rfl, rfl, rfl, rfl, rfl, fun s => rfl⟩
            | ok db6 =>
              rw [h6] at h
              dsimp only at h ⊢
              cases h7 : create_matches db6 wb with
              | error e => exact ⟨rfl, rfl, rfl, rfl, rfl, rfl, rfl, rfl, rfl, fun s => rfl⟩
              | ok db7 =>
                rw [h7] at h
                dsimp only at h ⊢
                cases h8 : create_matches_details db7 wb with
                | error e => exact ⟨rfl, rfl, rfl, rfl, rfl, rfl, rfl, rfl, rfl, fun s => rfl⟩
                | ok db8 =>
                  rw [h8] at h
                  simp [except_ok] at h

/-- Concrete instantiation of `treatExcelFile_failure_spec`: a workbook
whose Players sheet is missing fails at the fifth step after
team-division links were inserted, and the resulting state has every
table (team-division links included) empty. -/
theorem treatExcelFile_failure_spec_witness :
    (treat_excel_file
      { leagueseason := [], leaguedivision := [], leagueteam := [],
        leagueteamdivisions := [], leagueplayer := [], leagueplayerteams := [],
        leaguematch := [], leaguematchdetail := [] }
      { season := some ["S1"], divisions := some ["D1"],
        teams := some [{ Division_name := "D1", name := "T1", initials := "T" }],
        players := none, matchesSheet := none }).1 = false ∧
    (treat_excel_file
      { leagueseason := [], leaguedivision := [], leagueteam := [],
        leagueteamdivisions := [], leagueplayer := [], leagueplayerteams := [],
        leaguematch := [], leaguematchdetail := [] }
      { season := some ["S1"], divisions := some ["D1"],
        teams := some [{ Division_name := "D1", name := "T1", initials := "T" }],
        players := none, matchesSheet := none }).2.leagueteamdivisions = [] := by
  refine ⟨(treatExcelFile_failure_spec _ _ ?_).1, (treatExcelFile_failure_spec _ _ ?_).2.2.2.2.1⟩
  · decide
  · decide

theorem resolve_match_rows_length (db : DBState) :
    ∀ (l : List MatchSheetRow) (recs : List MatchRec),
      resolve_match_rows db l = Except.ok recs → recs.length = l.length := by
  intro l
  induction l with
  | nil =>
    intro recs h
    simp [resolve_match_rows] at h
    rw [h]
    rfl
  | cons r rs ih =>
    intro recs h
    unfold resolve_match_rows at h
    cases hd : division_id_of db r.Division_name with
    | error e => rw [hd] at h; simp at h
    | ok divId =>
      rw [hd] at h
      dsimp only at h
      cases hr : resolve_match_rows db rs with
      | error e => rw [hr] at h; simp at h
      | ok rest =>
        rw [hr] at h
        dsimp only at h
        cases h
        simp [ih rest hr]

/-- Claim C6 counterexample: a Matches row with Team1_name = "-" and
Team2_name = "A" has only one sentinel name, yet the import filter drops
it, while the claim says rows with only one "-" are kept. -/
theorem matches_sentinel_counterexample :
    matches_rows_kept
      [{ id := 1, Division_name := "D", Matchday := "1", Game_number := 1,
         Team1_name := "-", Team2_name := "A", Inverse := 0 }] = [] ∧
    ({ id := 1, Division_name := "D", Matchday := "1", Game_number := 1,
       Team1_name := "-", Team2_name := "A", Inverse := 0 } : MatchSheetRow).Team1_name = "-" ∧
    ({ id := 1, Division_name := "D", Matchday := "1", Game_number := 1,
       Team1_name := "-", Team2_name := "A", Inverse := 0 } : MatchSheetRow).Team2_name ≠ "-" := by
  decide

/-- Claim C6 (amended): in both `create_matches` and
`create_matches_details` a row is dropped before insertion exactly when
at least one of its two team names equals the sentinel "-" (kept iff
both differ from "-"); on success `create_matches` inserts one match per
kept row and `create_matches_details` builds its detail rows from
exactly the kept rows. -/
theorem matches_sentinel_spec (rows : List MatchSheetRow) :
    (∀ r, r ∈ matches_rows_kept rows ↔
      r ∈ rows ∧ ¬(r.Team1_name = "-" ∨ r.Team2_name = "-")) ∧
    (∀ db wb db2, wb.matchesSheet = some rows → create_matches db wb = Except.ok db2 →
      db2.leaguematch.length = db.leaguematch.length + (matches_rows_kept rows).length) ∧
    (∀ db wb db2, wb.matchesSheet = some rows →
      create_matches_details db wb = Except.ok db2 →
      db2.leaguematchdetail =
        db.leaguematchdetail ++
          matches_details_data (matches_rows_kept rows) (team_name_table db)) := by
  refine ⟨?_, ?_, ?_⟩
  · intro r
    unfold matches_rows_kept
    rw [List.mem_filter]
    constructor
    · rintro ⟨hmem, hcond⟩
      refine ⟨hmem, ?_⟩
      simp only [Bool.and_eq_true, bne_iff_ne] at hcond
      tauto
    · rintro ⟨hmem, hcond⟩
      refine ⟨hmem, ?_⟩
      simp only [Bool.and_eq_true, bne_iff_ne]
      tauto
  · intro db wb db2 hsheet hok
    unfold create_matches at hok
    rw [hsheet] at hok
    dsimp only [read_sheet] at hok
    cases hres : resolve_match_rows db (matches_rows_kept rows) with
    | error e => rw [hres] at hok; simp at hok
    | ok newRows =>
      rw [hres] at hok
      dsimp only at hok
      cases hok
      simp [resolve_match_rows_length db _ _ hres]
  · intro db wb db2 hsheet hok
    unfold create_matches_details at hok
    rw [hsheet] at hok
    dsimp only [read_sheet] at hok
    by_cases hemp : db.leagueteam.isEmpty = true
    · rw [if_pos hemp] at hok
      simp at hok
    · rw [if_neg hemp] at hok
      cases hok
      rfl

/-- Concrete instantiation of `matches_sentinel_spec`: a row with
ordinary names is kept, a row whose first name is the sentinel "-" is
dropped. -/
theorem matches_sentinel_spec_witness :
    ({ id := 1, Division_name := "D", Matchday := "1", Game_number := 1,
       Team1_name := "A", Team2_name := "B", Inverse := 0 } : MatchSheetRow) ∈
      matches_rows_kept
        [{ id := 1, Division_name := "D", Matchday := "1", Game_number := 1,
           Team1_name := "A", Team2_name := "B", Inverse := 0 },
         { id := 2, Division_name := "D", Matchday := "1", Game_number := 2,
           Team1_name := "-", Team2_name := "B", Inverse := 0 }] ∧
    ({ id := 2, Division_name := "D", Matchday := "1", Game_number := 2,
       Team1_name := "-", Team2_name := "B", Inverse := 0 } : MatchSheetRow) ∉
      matches_rows_kept
        [{ id := 1, Division_name := "D", Matchday := "1", Game_number := 1,
           Team1_name := "A", Team2_name := "B", Inverse := 0 },
         { id := 2, Division_name := "D", Matchday := "1", Game_number := 2,
           Team1_name := "-", Team2_name := "B", Inverse := 0 }] := by
  constructor
  · exact ((matches_sentinel_spec _).1 _).mpr ⟨by decide, by decide⟩
  · intro hmem
    exact (((matches_sentinel_spec _).1 _).mp hmem).2 (Or.inl rfl)

theorem foldl_filter_map_eq {α β : Type} (P : α → Bool) (f : α → β) :
    ∀ (l : List α) (acc : List β),
      l.foldl (fun acc kv => if P kv then acc ++ [f kv] else acc) acc =
        acc ++ (l.filter P).map f := by
  intro l
  induction l with
  | nil => intro acc; simp
  | cons a t ih =>
    intro acc
    simp only [List.foldl_cons]
    by_cases hp : P a = true
    · rw [if_pos hp, ih, List.filter_cons_of_pos hp]
      simp
    · rw [if_neg hp, ih, List.filter_cons_of_neg (by simpa using hp)]

theorem mem_foldl_sentinel {β : Type} (f : Int × Int → β) (l : List (Int × Int)) (x : β)
    (hx : x ∈ l.foldl
      (fun acc kv => if kv.1 != -1 && kv.2 != -1 then acc ++ [f kv] else acc) []) :
    ∃ kv, kv ∈ l ∧ kv.1 ≠ -1 ∧ kv.2 ≠ -1 ∧ x = f kv := by
  rw [foldl_filter_map_eq (fun kv => kv.1 != -1 && kv.2 != -1) f l []] at hx
  rw [List.nil_append] at hx
  rcases List.mem_map.mp hx with ⟨kv, hkv, he⟩
  rcases List.mem_filter.mp hkv with ⟨hmem, hcond⟩
  simp only [Bool.and_eq_true, bne_iff_ne] at hcond
  exact ⟨kv, hmem, hcond.1, hcond.2, he.symm⟩

/-- Claim C7: during relationship building, a spreadsheet name with no
exact-string match among the previously inserted rows resolves to the
sentinel -1; the corresponding relationship row is silently omitted from
the inserted data (the builders are total functions, no exception); and
every inserted relationship row — team-division links, active and
inactive player-team links — has both ids different from -1. -/
theorem relationship_sentinel_spec (rows : List TeamSheetRow) (prows : List PlayerSheetRow)
    (tTbl dTbl pTbl : List (Int × String)) :
    (∀ nm, (∀ e ∈ tTbl, e.2 ≠ nm) → name_id_lookup tTbl nm = -1) ∧
    (team_divisions_data rows tTbl dTbl =
      ((team_divisions_pairs rows tTbl dTbl).filter
        (fun kv => kv.1 != -1 && kv.2 != -1)).map
        (fun kv => { leagueTeamId := kv.1, leagueDivisionId := kv.2 })) ∧
    (∀ q ∈ team_divisions_data rows tTbl dTbl,
      q.leagueTeamId ≠ -1 ∧ q.leagueDivisionId ≠ -1) ∧
    (∀ q ∈ team_players_active_data prows pTbl tTbl,
      q.leaguePlayerId ≠ -1 ∧ q.leagueTeamId ≠ -1) ∧
    (∀ q ∈ team_players_inactive_data prows pTbl tTbl,
      q.leaguePlayerId ≠ -1 ∧ q.leagueTeamId ≠ -1) := by
  refine ⟨?_, ?_, ?_, ?_, ?_⟩
  · intro nm hne
    unfold name_id_lookup
    rw [List.filter_eq_nil_iff.mpr ?_]
    · rfl
    · intro e he
      simp only [bne_iff_ne, ne_eq, beq_iff_eq]
      exact hne e he
  · unfold team_divisions_data
    rw [foldl_filter_map_eq (fun kv : Int × Int => kv.1 != -1 && kv.2 != -1)
      (fun kv : Int × Int =>
        ({ leagueTeamId := kv.1, leagueDivisionId := kv.2 } : TDRec)) _ []]
    rw [List.nil_append]
  · intro q hq
    rcases mem_foldl_sentinel _ _ _ hq with ⟨kv, _, h1, h2, he⟩
    rw [he]
    exact ⟨h1, h2⟩
  · intro q hq
    rcases mem_foldl_sentinel _ _ _ hq with ⟨kv, _, h1, h2, he⟩
    rw [he]
    exact ⟨h1, h2⟩
  · intro q hq
    unfold team_players_inactive_data at hq
    rcases List.mem_flatMap.mp hq with ⟨j, _, hmem⟩
    rcases mem_foldl_sentinel _ _ _ hmem with ⟨kv, _, h1, h2, he⟩
    rw [he]
    exact ⟨h1, h2⟩

/-- Concrete instantiation of `relationship_sentinel_spec`: the name
"ZZ" is absent from the teams table and resolves to -1, and the single
inserted team-division link of a two-row sheet (one resolvable row, one
not) has both ids different from -1. -/
theorem relationship_sentinel_spec_witness :
    name_id_lookup [((1 : Int), "T1")] "ZZ" = -1 ∧
    ({ leagueTeamId := 1, leagueDivisionId := 2 } : TDRec).leagueTeamId ≠ -1 ∧
    ({ leagueTeamId := 1, leagueDivisionId := 2 } : TDRec).leagueDivisionId ≠ -1 := by
  refine ⟨?_, ?_⟩
  · exact (relationship_sentinel_spec [] [] [((1 : Int), "T1")] [] []).1 "ZZ" (by decide)
  · exact (relationship_sentinel_spec
      [{ Division_name := "D1", name := "T1", initials := "t" },
       { Division_name := "D1", name := "ZZ", initials := "z" }] []
      [((1 : Int), "T1")] [((2 : Int), "D1")] []).2.2.1 _ (by decide)
